import Mathlib

/-!
Shallow embedding of the route-planning logic of the Iceland-map web
application (`src/services/database.js`, `src/app.js`).  JavaScript numbers
are modelled as exact real numbers; the asynchronous `fetch` call is
modelled by an explicit `FetchOutcome` parameter; thrown exceptions are
modelled with `Except`.
-/

open Real

noncomputable section

/-- `toRad(deg)` from `database.js`: `deg * (Math.PI / 180)`. -/
def toRad (deg : ℝ) : ℝ := deg * (π / 180)

/-- JavaScript `Math.atan2(y, x)`. -/
def atan2 (y x : ℝ) : ℝ :=
  if 0 < x then arctan (y / x)
  else if x < 0 then
    (if 0 ≤ y then arctan (y / x) + π else arctan (y / x) - π)
  else
    (if 0 < y then π / 2 else if y < 0 then -(π / 2) else 0)

/-- `haversineDistance(point1, point2)` from `database.js`; points are
`[lat, lng]` pairs, result is in kilometers. -/
def haversineDistance (point1 point2 : ℝ × ℝ) : ℝ :=
  let R : ℝ := 6371
  let dLat := toRad (point2.1 - point1.1)
  let dLon := toRad (point2.2 - point1.2)
  let a := Real.sin (dLat / 2) * Real.sin (dLat / 2) +
    Real.cos (toRad point1.1) * Real.cos (toRad point2.1) *
    Real.sin (dLon / 2) * Real.sin (dLon / 2)
  let c := 2 * atan2 (Real.sqrt a) (Real.sqrt (1 - a))
  R * c

/-- One entry of the `TransportModes` table in `database.js`. -/
structure TransportMode where
  id : String
  name : String
  profile : String
  icon : String
  avgSpeed : ℝ

/-- The `TransportModes` lookup table from `database.js`, as a partial map
from mode strings (JavaScript `TransportModes[mode]`). -/
def TransportModes (mode : String) : Option TransportMode :=
  if mode = "driving" then
    some ⟨"driving", "En coche", "driving", "car", 80⟩
  else if mode = "cycling" then
    some ⟨"cycling", "En bicicleta", "cycling", "bicycle", 20⟩
  else if mode = "walking" then
    some ⟨"walking", "A pie", "foot", "walking", 5⟩
  else none

/-- A GeoJSON-style geometry object. -/
structure Geometry where
  type : String
  coordinates : List (ℝ × ℝ)
deriving DecidableEq

/-- A step inside a route leg (primary path only). -/
structure RouteStep where
  distance : ℝ
  duration : ℝ
  instruction : String
  name : String

/-- A leg of a computed route. -/
structure RouteLeg where
  distance : ℝ
  duration : ℝ
  steps : List RouteStep

/-- A waypoint entry of a route result (`{name, location}`). -/
structure RouteWaypoint where
  name : String
  location : ℝ × ℝ

/-- The object returned by `calculateRoute` / `calculateFallbackRoute`.
`isFallback` is absent (`undefined`, i.e. falsy) on the primary path and
`true` on the fallback path; we model it as a `Bool` defaulting to
`false`. -/
structure RouteResult where
  distance : ℝ
  duration : ℝ
  geometry : Option Geometry
  legs : List RouteLeg
  waypoints : List RouteWaypoint
  isFallback : Bool := false

/-- `calculateFallbackRoute(waypoints, mode)` from `database.js`.
The `for (let i = 0; i < waypoints.length - 1; i++)` accumulation loop is
a left fold over the index range. -/
def calculateFallbackRoute (waypoints : List (ℝ × ℝ)) (mode : String) :
    RouteResult :=
  let avgSpeed := match TransportModes mode with
    | some m => m.avgSpeed
    | none => 80
  let totalDistance := (List.range (waypoints.length - 1)).foldl
    (fun acc i =>
      acc + haversineDistance (waypoints.getD i (0, 0))
        (waypoints.getD (i + 1) (0, 0))) 0
  let roadDistance := totalDistance * 1.3
  let duration := roadDistance / avgSpeed * 3600
  { distance := roadDistance * 1000
    duration := duration
    geometry := some ⟨"LineString", waypoints.map (fun wp => (wp.2, wp.1))⟩
    legs := []
    waypoints := waypoints.enum.map
      (fun p => ⟨"Punto " ++ toString (p.1 + 1), p.2⟩)
    isFallback := true }

/-- The parsed JSON body returned by the OSRM server. -/
structure OsrmData where
  code : String
  message : Option String
  routes : List RouteResult
  waypoints : List RouteWaypoint

/-- Outcome of the single `fetch` call inside `calculateRoute`: the fetch
either rejects (network error) or resolves to a response with an `ok`
flag, a status code and a parsed JSON body. -/
inductive FetchOutcome where
  | networkError
  | response (ok : Bool) (status : Nat) (data : OsrmData)

/-- `calculateRoute(waypoints, mode)` from `database.js`.  The input is
`Option`-wrapped to model a `null`/`undefined` waypoint array; the second
component of the result counts the network requests issued.  Every failure
inside the `try` block (rejected fetch, non-ok HTTP status, non-"Ok"
payload code, or an empty `routes` array making `data.routes[0]` access
throw) is caught and answered by the fallback computation. -/
def calculateRoute (waypoints : Option (List (ℝ × ℝ))) (mode : String)
    (fetch : FetchOutcome) : Except String RouteResult × Nat :=
  match waypoints with
  | none => (Except.error "Se necesitan al menos 2 puntos para calcular una ruta", 0)
  | some wps =>
    if wps.length < 2 then
      (Except.error "Se necesitan al menos 2 puntos para calcular una ruta", 0)
    else
      match fetch with
      | FetchOutcome.networkError => (Except.ok (calculateFallbackRoute wps mode), 1)
      | FetchOutcome.response ok _ data =>
        if ok = false then (Except.ok (calculateFallbackRoute wps mode), 1)
        else if data.code ≠ "Ok" then (Except.ok (calculateFallbackRoute wps mode), 1)
        else
          match data.routes.head? with
          | none => (Except.ok (calculateFallbackRoute wps mode), 1)
          | some route =>
            (Except.ok { distance := route.distance
                         duration := route.duration
                         geometry := route.geometry
                         legs := route.legs
                         waypoints := data.waypoints }, 1)

/-- Spec-side description of "the sum of the haversine distances between
consecutive waypoints". -/
def pairwiseHaversineSum : List (ℝ × ℝ) → ℝ
  | a :: b :: rest => haversineDistance a b + pairwiseHaversineSum (b :: rest)
  | _ => 0

/-- Spec-side description of "the mode's average speed (km/h)", with the
same default as the source's `TransportModes[mode]?.avgSpeed || 80`. -/
def avgSpeedOf (mode : String) : ℝ :=
  match TransportModes mode with
  | some m => m.avgSpeed
  | none => 80

/-- The failure conditions of the routing service named by the spec:
network error, non-OK HTTP status, or a non-"Ok" payload code. -/
def ServiceFails : FetchOutcome → Prop
  | FetchOutcome.networkError => True
  | FetchOutcome.response ok _ data => ok = false ∨ data.code ≠ "Ok"

/-- A waypoint of the route under construction in `app.js`
(`{id, name, coordinates, category}` pushed by `addWaypointFromPOI`). -/
structure AppWaypoint where
  id : String
  name : String
  coordinates : ℝ × ℝ
  category : String

/-- A placeholder waypoint used as the default value of list lookups that
the source performs with plain (in-bounds) JavaScript indexing. -/
def defaultWaypoint : AppWaypoint := ⟨"", "", (0, 0), ""⟩

/-- The `remaining.forEach((wp, i) => ...)` scan inside
`optimizeWaypointOrder`: walks the list with its element index, keeping
`(nearestIndex, nearestDistance)`.  The source initialises
`nearestDistance = Infinity`; that initial infinity is modelled by
`Option.none`, which every finite distance improves on. -/
def scanNearestAux (cur : ℝ × ℝ) :
    List AppWaypoint → Nat → Nat × Option ℝ → Nat × Option ℝ
  | [], _, best => best
  | wp :: rest, i, best =>
    let dist := haversineDistance cur wp.coordinates
    let best' := match best.2 with
      | none => (i, some dist)
      | some bd => if dist < bd then (i, some dist) else best
    scanNearestAux cur rest (i + 1) best'

/-- The full inner scan of `optimizeWaypointOrder`, started at index 0
with `nearestIndex = 0` and `nearestDistance = Infinity`. -/
def scanNearest (cur : ℝ × ℝ) (remaining : List AppWaypoint) :
    Nat × Option ℝ :=
  scanNearestAux cur remaining 0 (0, none)

/-- `waypoints.filter((_, i) => i !== startIndex)`: keep the elements
whose index differs from `i`; the counter argument tracks the index of
the head. -/
def filterIdxNeAux : List AppWaypoint → Nat → Nat → List AppWaypoint
  | [], _, _ => []
  | a :: rest, k, i =>
    if k = i then filterIdxNeAux rest (k + 1) i
    else a :: filterIdxNeAux rest (k + 1) i

/-- `waypoints.filter((_, i) => i !== startIndex)` from
`optimizeWaypointOrder`. -/
def filterIdxNe (l : List AppWaypoint) (i : Nat) : List AppWaypoint :=
  filterIdxNeAux l 0 i

/-- The `while (remaining.length > 0)` loop of `optimizeWaypointOrder`.
Each iteration reads the last pushed waypoint, scans `remaining` for the
nearest one, pushes it and splices it out; since `splice` removes exactly
one element per iteration the loop runs exactly `remaining.length` times,
which is the structural bound used here. -/
def nnLoop : Nat → List AppWaypoint → List AppWaypoint → List AppWaypoint
  | 0, optimized, _ => optimized
  | _ + 1, optimized, [] => optimized
  | n + 1, optimized, wp :: rest =>
    let current := optimized.getLastD defaultWaypoint
    let j := (scanNearest current.coordinates (wp :: rest)).1
    nnLoop n (optimized ++ [(wp :: rest).getD j defaultWaypoint])
      ((wp :: rest).eraseIdx j)

/-- `optimizeWaypointOrder(waypoints, startIndex)` from `database.js`. -/
def optimizeWaypointOrder (waypoints : List AppWaypoint)
    (startIndex : Nat) : List AppWaypoint :=
  if waypoints.length ≤ 2 then waypoints
  else
    let remaining := filterIdxNe waypoints startIndex
    nnLoop remaining.length [waypoints.getD startIndex defaultWaypoint]
      remaining

/-- Spec-side characterisation of the greedy nearest-neighbour chain:
`GreedyChain cur remaining rest` holds when `rest` is obtained by
repeatedly selecting, among the not-yet-visited waypoints `remaining`
(kept in stable order), the one with minimum haversine distance to the
last-placed waypoint `cur`, ties broken by the first-encountered
element. -/
inductive GreedyChain : (ℝ × ℝ) → List AppWaypoint → List AppWaypoint → Prop
  | nil (cur : ℝ × ℝ) : GreedyChain cur [] []
  | cons (cur : ℝ × ℝ) (pre suf rest : List AppWaypoint) (chosen : AppWaypoint) :
      (∀ q ∈ pre,
        haversineDistance cur chosen.coordinates <
          haversineDistance cur q.coordinates) →
      (∀ q ∈ suf,
        haversineDistance cur chosen.coordinates ≤
          haversineDistance cur q.coordinates) →
      GreedyChain chosen.coordinates (pre ++ suf) rest →
      GreedyChain cur (pre ++ chosen :: suf) (chosen :: rest)

/-- The `this.currentRoute` object of `GeoportalApp` (`app.js`). -/
structure CurrentRoute where
  waypoints : List AppWaypoint
  distance : ℝ
  duration : ℝ
  geometry : Option Geometry
  transportMode : String

/-- The slice of application state the route claims touch: the
`currentRoute` aggregate plus the route overlay currently drawn on the
map (`this.map.drawRoute` / `drawPolyline` / `clearRoute`). -/
structure AppState where
  currentRoute : CurrentRoute
  mapRoute : Option Geometry

/-- A point of interest from the static catalogue (`data/pois.js`),
restricted to the fields `addWaypointFromPOI` reads. -/
structure POI where
  id : String
  name : String
  category : String
  coordinates : ℝ × ℝ

/-- A category entry from `data/pois.js`, restricted to the fields read
here. -/
structure Category where
  id : String
  name : String

/-- `getPoiById(poiId)` from `data/pois.js`: `pois.find(poi => poi.id ===
poiId)`; the catalogue is passed as a parameter. -/
def getPoiById (pois : List POI) (poiId : String) : Option POI :=
  pois.find? (fun poi => poi.id = poiId)

/-- `getCategoryById(categoryId)` from `data/pois.js`. -/
def getCategoryById (categories : List Category) (categoryId : String) :
    Option Category :=
  categories.find? (fun cat => cat.id = categoryId)

/-- The assignments `updateRouteOnMap` performs on `this.currentRoute`
and on the map overlay once an awaited `calculateRoute` result arrives:
store distance, duration and geometry, then draw the route geometry (or,
absent a geometry, a plain polyline through the waypoint coordinates). -/
def applyRouteResult (s : AppState) (coordinates : List (ℝ × ℝ))
    (routeData : RouteResult) : AppState :=
  { currentRoute :=
      { s.currentRoute with
        distance := routeData.distance
        duration := routeData.duration
        geometry := routeData.geometry }
    mapRoute :=
      match routeData.geometry with
      | some g => some g
      | none => some ⟨"LineString", coordinates⟩ }

/-- `updateRouteOnMap()` from `app.js`, with the awaited `fetch` outcome
passed explicitly.  Returns the new state together with a flag recording
whether the route calculator was invoked.  With fewer than 2 waypoints
the map overlay is cleared and distance/duration are zeroed — the
aggregate's `geometry` field is left untouched — and no calculation
happens.  (With ≥ 2 waypoints `calculateRoute` never throws, so the
`catch` branch that merely draws a polyline is unreachable; it is still
modelled.) -/
def updateRouteOnMap (s : AppState) (fetch : FetchOutcome) :
    AppState × Bool :=
  let waypoints := s.currentRoute.waypoints
  if waypoints.length < 2 then
    ({ currentRoute := { s.currentRoute with distance := 0, duration := 0 }
       mapRoute := none }, false)
  else
    let coordinates := waypoints.map (fun wp => wp.coordinates)
    match (calculateRoute (some coordinates) s.currentRoute.transportMode fetch).1 with
    | Except.ok routeData => (applyRouteResult s coordinates routeData, true)
    | Except.error _ => ({ s with mapRoute := some ⟨"LineString", coordinates⟩ }, true)

/-- `removeWaypoint(index)` from `app.js`: `splice(index, 1)` on the
waypoint list, then `updateRouteOnMap()`. -/
def removeWaypoint (s : AppState) (index : Nat) (fetch : FetchOutcome) :
    AppState × Bool :=
  updateRouteOnMap
    { s with currentRoute :=
        { s.currentRoute with
          waypoints := s.currentRoute.waypoints.eraseIdx index } }
    fetch

/-- `addWaypointFromPOI(poiId)` from `app.js`: look the POI up, refuse a
duplicate identifier (no-op, only a toast), otherwise push a waypoint
built from the POI and recompute via `updateRouteOnMap`. -/
def addWaypointFromPOI (pois : List POI) (categories : List Category)
    (s : AppState) (poiId : String) (fetch : FetchOutcome) : AppState :=
  match getPoiById pois poiId with
  | none => s
  | some poi =>
    if s.currentRoute.waypoints.any (fun wp => wp.id = poiId) then s
    else
      let category := getCategoryById categories poi.category
      let wp : AppWaypoint :=
        { id := poi.id
          name := poi.name
          coordinates := poi.coordinates
          category := (category.map Category.name).getD poi.category }
      (updateRouteOnMap
        { s with currentRoute :=
            { s.currentRoute with
              waypoints := s.currentRoute.waypoints ++ [wp] } }
        fetch).1

/-- `setTransportMode(mode)` from `app.js`: store the mode and, when at
least two waypoints exist, recompute via `updateRouteOnMap`. -/
def setTransportMode (s : AppState) (mode : String) (fetch : FetchOutcome) :
    AppState :=
  let s' := { s with currentRoute := { s.currentRoute with transportMode := mode } }
  if 2 ≤ s'.currentRoute.waypoints.length then (updateRouteOnMap s' fetch).1
  else s'

/-- `clearRoute()` from `app.js`: replace `currentRoute` by a fresh empty
route that keeps the transport mode, and clear the map overlay
(`clearRouteElements`). -/
def clearRoute (s : AppState) : AppState :=
  { currentRoute :=
      { waypoints := []
        distance := 0
        duration := 0
        geometry := none
        transportMode := s.currentRoute.transportMode }
    mapRoute := none }

/-- Concrete waypoint A = (0, 0) from the spec's sequencer example. -/
def wpA : AppWaypoint := ⟨"A", "A", (0, 0), "nature"⟩

/-- Concrete waypoint B = (0, 1) from the spec's sequencer example. -/
def wpB : AppWaypoint := ⟨"B", "B", (0, 1), "nature"⟩

/-- Concrete waypoint C = (0, 3) from the spec's sequencer example. -/
def wpC : AppWaypoint := ⟨"C", "C", (0, 3), "nature"⟩

/-- A concrete geometry object used in concrete test states. -/
def sampleGeometry : Geometry := ⟨"LineString", [(0, 0), (1, 0)]⟩

/-- A concrete application state holding a two-waypoint route with a
computed geometry. -/
def sampleState : AppState :=
  { currentRoute :=
      { waypoints := [wpA, wpB]
        distance := 5
        duration := 6
        geometry := some sampleGeometry
        transportMode := "driving" }
    mapRoute := some sampleGeometry }

/-- A concrete POI catalogue entry whose identifier matches `wpA`. -/
def samplePoi : POI := ⟨"A", "A", "nature", (0, 0)⟩

end

/-! ## Properties of the geo-math utility -/

theorem haversineDistance_comm (a b : ℝ × ℝ) :
    haversineDistance a b = haversineDistance b a := by
  unfold haversineDistance toRad
  have e1 : (a.1 - b.1) * (π / 180) / 2 = -((b.1 - a.1) * (π / 180) / 2) := by
    ring
  have e2 : (a.2 - b.2) * (π / 180) / 2 = -((b.2 - a.2) * (π / 180) / 2) := by
    ring
  simp only [e1, e2, Real.sin_neg]
  ring_nf

theorem haversineDistance_self (p : ℝ × ℝ) : haversineDistance p p = 0 := by
  unfold haversineDistance toRad atan2
  norm_num [Real.arctan_zero]

/-- Claim C4: the haversine distance is symmetric (its two orders agree
within the 1e-6 km tolerance — in the real-number model they are equal
outright) and the distance from a point to itself is zero. -/
theorem haversine_symm_and_self (a b : ℝ × ℝ) :
    |haversineDistance a b - haversineDistance b a| ≤ 1e-6 ∧
    haversineDistance a a = 0 := by
  constructor
  · rw [haversineDistance_comm a b]
    simp only [sub_self, abs_zero]
    norm_num
  · exact haversineDistance_self a

/-! ## Route aggregate state transitions -/

/-- Claim C8: `clearRoute` resets the aggregate to the empty state —
no waypoints, zero distance and duration, no geometry, map overlay
removed — while the transport mode keeps its previous value. -/
theorem clearRoute_resets_with_mode_preserved (s : AppState) :
    (clearRoute s).currentRoute.waypoints = [] ∧
    (clearRoute s).currentRoute.distance = 0 ∧
    (clearRoute s).currentRoute.duration = 0 ∧
    (clearRoute s).currentRoute.geometry = none ∧
    (clearRoute s).mapRoute = none ∧
    (clearRoute s).currentRoute.transportMode = s.currentRoute.transportMode :=
  ⟨rfl, rfl, rfl, rfl, rfl, rfl⟩

/-! ## Waypoint sequencer: short inputs -/

/-- Claim C6: on a waypoint list with two or fewer elements,
`optimizeWaypointOrder` returns its input unchanged for every start
index. -/
theorem optimizeWaypointOrder_short_identity (wps : List AppWaypoint)
    (i : Nat) (h : wps.length ≤ 2) : optimizeWaypointOrder wps i = wps := by
  unfold optimizeWaypointOrder
  exact if_pos h

/-- Witness for claim C6 at the concrete two-element list `[wpA, wpB]`
with the out-of-range start index 5. -/
theorem optimizeWaypointOrder_short_identity_witness :
    ([wpA, wpB] : List AppWaypoint).length ≤ 2 ∧
    optimizeWaypointOrder [wpA, wpB] 5 = [wpA, wpB] :=
  ⟨by decide, optimizeWaypointOrder_short_identity [wpA, wpB] 5 (by decide)⟩

/-! ## Route calculator: insufficient waypoints -/

/-- Claim C2: with a missing waypoint array or fewer than two
coordinates, `calculateRoute` throws the insufficient-waypoints error and
issues no network request. -/
theorem calculateRoute_insufficient_waypoints
    (w : Option (List (ℝ × ℝ))) (mode : String) (fetch : FetchOutcome)
    (h : w = none ∨ ∃ l, w = some l ∧ l.length < 2) :
    calculateRoute w mode fetch =
      (Except.error "Se necesitan al menos 2 puntos para calcular una ruta", 0) := by
  rcases h with h | ⟨l, rfl, hl⟩
  · subst h; rfl
  · simp [calculateRoute, if_pos hl]

/-- Witness for claim C2 at the concrete singleton list `[(0, 0)]`. -/
theorem calculateRoute_insufficient_waypoints_witness :
    ((some [((0 : ℝ), (0 : ℝ))] = (none : Option (List (ℝ × ℝ)))) ∨
      ∃ l, some [((0 : ℝ), (0 : ℝ))] = some l ∧ l.length < 2) ∧
    calculateRoute (some [((0 : ℝ), (0 : ℝ))]) "driving" FetchOutcome.networkError =
      (Except.error "Se necesitan al menos 2 puntos para calcular una ruta", 0) :=
  ⟨Or.inr ⟨[((0 : ℝ), (0 : ℝ))], rfl, by decide⟩,
    calculateRoute_insufficient_waypoints _ "driving" FetchOutcome.networkError
      (Or.inr ⟨[((0 : ℝ), (0 : ℝ))], rfl, by decide⟩)⟩

/-! ## Route calculator: the fallback formula -/

theorem foldl_add_map (g : Nat → ℝ) :
    ∀ (l : List Nat) (c : ℝ),
      l.foldl (fun acc i => acc + g i) c = c + (l.map g).sum := by
  intro l
  induction l with
  | nil => intro c; simp
  | cons a t ih =>
    intro c
    simp only [List.foldl_cons, List.map_cons, List.sum_cons, ih, add_assoc]

theorem range_map_haversine_eq_pairwiseSum :
    ∀ l : List (ℝ × ℝ),
      ((List.range (l.length - 1)).map
        (fun i => haversineDistance (l.getD i (0, 0)) (l.getD (i + 1) (0, 0)))).sum
      = pairwiseHaversineSum l
  | [] => by simp [pairwiseHaversineSum]
  | [a] => by simp [pairwiseHaversineSum]
  | a :: b :: t => by
    have ih := range_map_haversine_eq_pairwiseSum (b :: t)
    have hlen : (a :: b :: t).length - 1 = ((b :: t).length - 1) + 1 := by
      simp
    rw [hlen, List.range_succ_eq_map]
    simp only [List.map_cons, List.map_map, List.sum_cons, Function.comp_def,
      Nat.succ_eq_add_one, List.getD_cons_succ, List.getD_cons_zero]
    simp only [List.getD_cons_succ] at ih
    rw [ih]
    simp [pairwiseHaversineSum]

theorem calculateFallbackRoute_distance (wps : List (ℝ × ℝ)) (mode : String) :
    (calculateFallbackRoute wps mode).distance =
      1.3 * pairwiseHaversineSum wps * 1000 := by
  unfold calculateFallbackRoute
  simp only [foldl_add_map, zero_add, range_map_haversine_eq_pairwiseSum]
  ring

theorem calculateFallbackRoute_duration (wps : List (ℝ × ℝ)) (mode : String) :
    (calculateFallbackRoute wps mode).duration =
      1.3 * pairwiseHaversineSum wps / avgSpeedOf mode * 3600 := by
  unfold calculateFallbackRoute avgSpeedOf
  simp only [foldl_add_map, zero_add, range_map_haversine_eq_pairwiseSum]
  ring_nf

/-- Claim C1: on two or more waypoints, the fallback route's distance in
meters is 1.3 times the summed consecutive haversine distances (km)
converted to meters, and its duration in seconds is that road distance
divided by the mode's average speed (km/h) times 3600. -/
theorem calculateFallbackRoute_formula (wps : List (ℝ × ℝ)) (mode : String)
    (h : 2 ≤ wps.length) :
    (calculateFallbackRoute wps mode).distance =
      1.3 * pairwiseHaversineSum wps * 1000 ∧
    (calculateFallbackRoute wps mode).duration =
      1.3 * pairwiseHaversineSum wps / avgSpeedOf mode * 3600 :=
  ⟨calculateFallbackRoute_distance wps mode,
    calculateFallbackRoute_duration wps mode⟩

theorem atan2_nonneg (y x : ℝ) (hy : 0 ≤ y) : 0 ≤ atan2 y x := by
  unfold atan2
  by_cases hx : 0 < x
  · rw [if_pos hx]
    have h := Real.arctan_strictMono.monotone (div_nonneg hy (le_of_lt hx))
    rwa [Real.arctan_zero] at h
  · rw [if_neg hx]
    by_cases hx' : x < 0
    · rw [if_pos hx', if_pos hy]
      have := Real.neg_pi_div_two_lt_arctan (y / x)
      have hpi := Real.pi_pos
      linarith
    · rw [if_neg hx']
      by_cases hy' : 0 < y
      · rw [if_pos hy']
        have hpi := Real.pi_pos
        linarith
      · rw [if_neg hy', if_neg (by linarith : ¬y < 0)]

theorem haversineDistance_nonneg (p q : ℝ × ℝ) :
    0 ≤ haversineDistance p q := by
  unfold haversineDistance
  have h := atan2_nonneg (Real.sqrt (Real.sin (toRad (q.1 - p.1) / 2) * Real.sin (toRad (q.1 - p.1) / 2) +
      Real.cos (toRad p.1) * Real.cos (toRad q.1) *
      Real.sin (toRad (q.2 - p.2) / 2) * Real.sin (toRad (q.2 - p.2) / 2)))
    (Real.sqrt (1 - (Real.sin (toRad (q.1 - p.1) / 2) * Real.sin (toRad (q.1 - p.1) / 2) +
      Real.cos (toRad p.1) * Real.cos (toRad q.1) *
      Real.sin (toRad (q.2 - p.2) / 2) * Real.sin (toRad (q.2 - p.2) / 2))))
    (Real.sqrt_nonneg _)
  positivity

theorem pairwiseHaversineSum_nonneg :
    ∀ l : List (ℝ × ℝ), 0 ≤ pairwiseHaversineSum l
  | [] => le_refl 0
  | [_] => le_refl 0
  | a :: b :: t => by
    have h1 := haversineDistance_nonneg a b
    have h2 := pairwiseHaversineSum_nonneg (b :: t)
    unfold pairwiseHaversineSum
    linarith

theorem pairwiseHaversineSum_pos :
    ∀ (l : List (ℝ × ℝ)) (i : Nat), i + 1 < l.length →
      0 < haversineDistance (l.getD i (0, 0)) (l.getD (i + 1) (0, 0)) →
      0 < pairwiseHaversineSum l
  | [], i, hi, _ => by simp at hi
  | [_], i, hi, _ => by simp at hi
  | a :: b :: t, 0, _, hpos => by
    have h2 := pairwiseHaversineSum_nonneg (b :: t)
    simp only [List.getD_cons_zero, List.getD_cons_succ] at hpos
    unfold pairwiseHaversineSum
    linarith
  | a :: b :: t, k + 1, hi, hpos => by
    have h1 := haversineDistance_nonneg a b
    have ih := pairwiseHaversineSum_pos (b :: t) k
      (by simpa [Nat.succ_lt_succ_iff] using hi)
      (by simpa [List.getD_cons_succ] using hpos)
    unfold pairwiseHaversineSum
    linarith

theorem avgSpeedOf_pos (mode : String) : 0 < avgSpeedOf mode := by
  unfold avgSpeedOf TransportModes
  by_cases h1 : mode = "driving"
  · simp [h1]
  · by_cases h2 : mode = "cycling"
    · simp [h1, h2]
    · by_cases h3 : mode = "walking"
      · simp [h1, h2, h3]
      · simp [h1, h2, h3]

/-- Along the equator the haversine distance reduces to the arc
`6371 * toRad x` for eastward offsets `x` below 180 degrees. -/
theorem haversineDistance_equator (x : ℝ) (h0 : 0 ≤ x) (h1 : x < 180) :
    haversineDistance (0, 0) (0, x) = 6371 * toRad x := by
  have hpi := Real.pi_pos
  set θ : ℝ := toRad x / 2 with hθ
  have hθ0 : 0 ≤ θ := by
    rw [hθ]
    unfold toRad
    positivity
  have hθlt : θ < π / 2 := by
    rw [hθ]
    unfold toRad
    nlinarith
  have hsin : 0 ≤ Real.sin θ := Real.sin_nonneg_of_nonneg_of_le_pi hθ0 (by linarith)
  have hcos : 0 < Real.cos θ := Real.cos_pos_of_mem_Ioo ⟨by linarith, hθlt⟩
  have e0 : toRad (0 - 0) = 0 := by unfold toRad; ring
  have e1 : toRad (x - 0) / 2 = θ := by rw [hθ]; unfold toRad; ring
  simp only [haversineDistance]
  rw [e0, e1]
  simp only [zero_div, Real.sin_zero, Real.cos_zero, mul_zero, zero_mul, one_mul,
    zero_add]
  have ha : Real.cos (toRad 0) * Real.cos (toRad 0) * Real.sin θ * Real.sin θ =
      Real.sin θ * Real.sin θ := by
    have : toRad 0 = 0 := by unfold toRad; ring
    rw [this, Real.cos_zero]
    ring
  rw [ha]
  have hs1 : Real.sqrt (Real.sin θ * Real.sin θ) = Real.sin θ :=
    Real.sqrt_mul_self hsin
  have hcossq : 1 - Real.sin θ * Real.sin θ = Real.cos θ * Real.cos θ := by
    have := Real.sin_sq_add_cos_sq θ
    nlinarith
  have hs2 : Real.sqrt (1 - Real.sin θ * Real.sin θ) = Real.cos θ := by
    rw [hcossq]
    exact Real.sqrt_mul_self (le_of_lt hcos)
  rw [hs1, hs2]
  unfold atan2
  rw [if_pos hcos]
  rw [← Real.tan_eq_sin_div_cos, Real.arctan_tan (by linarith) hθlt]
  rw [hθ]
  ring

theorem haversineDistance_equator_pos (x : ℝ) (h0 : 0 < x) (h1 : x < 180) :
    0 < haversineDistance (0, 0) (0, x) := by
  rw [haversineDistance_equator x (le_of_lt h0) h1]
  have hpi := Real.pi_pos
  unfold toRad
  positivity

/-- Crossing the antimeridian: the points `(0, -180)` and `(0, 180)` are
distinct coordinate pairs at haversine distance zero. -/
theorem haversineDistance_antimeridian :
    haversineDistance (0, -180) (0, 180) = 0 := by
  have e0 : toRad ((0 : ℝ) - 0) = 0 := by unfold toRad; ring
  have e1 : toRad ((180 : ℝ) - -180) / 2 = π := by unfold toRad; ring
  simp only [haversineDistance]
  rw [e0, e1]
  simp only [zero_div, Real.sin_zero, Real.sin_pi, mul_zero, zero_mul, zero_add,
    sub_zero, Real.sqrt_zero, Real.sqrt_one]
  unfold atan2
  rw [if_pos one_pos]
  simp [Real.arctan_zero]

/-- Witness for claim C1 at the concrete pair `[(0,0), (0,1)]` in driving
mode. -/
theorem calculateFallbackRoute_formula_witness :
    2 ≤ ([((0 : ℝ), (0 : ℝ)), ((0 : ℝ), (1 : ℝ))] : List (ℝ × ℝ)).length ∧
    ((calculateFallbackRoute [((0 : ℝ), (0 : ℝ)), ((0 : ℝ), (1 : ℝ))] "driving").distance =
      1.3 * pairwiseHaversineSum [((0 : ℝ), (0 : ℝ)), ((0 : ℝ), (1 : ℝ))] * 1000 ∧
    (calculateFallbackRoute [((0 : ℝ), (0 : ℝ)), ((0 : ℝ), (1 : ℝ))] "driving").duration =
      1.3 * pairwiseHaversineSum [((0 : ℝ), (0 : ℝ)), ((0 : ℝ), (1 : ℝ))] /
        avgSpeedOf "driving" * 3600) :=
  ⟨by decide,
    calculateFallbackRoute_formula [((0 : ℝ), (0 : ℝ)), ((0 : ℝ), (1 : ℝ))] "driving"
      (by decide)⟩

/-! ## Route calculator: service failure falls back -/

theorem calculateRoute_fails_to_fallback (wps : List (ℝ × ℝ)) (mode : String)
    (fetch : FetchOutcome) (h2 : 2 ≤ wps.length) (hfail : ServiceFails fetch) :
    (calculateRoute (some wps) mode fetch).1 =
      Except.ok (calculateFallbackRoute wps mode) := by
  have hlen : ¬wps.length < 2 := by omega
  cases fetch with
  | networkError => simp [calculateRoute, hlen]
  | response ok status data =>
    cases ok with
    | false => simp [calculateRoute, hlen]
    | true =>
      have hcode : data.code ≠ "Ok" := by
        rcases hfail with h | h
        · exact absurd h (by simp)
        · exact h
      simp [calculateRoute, hlen, hcode]

/-- Claim C3 (amended): with at least two waypoints of which some
consecutive pair lies at strictly positive haversine distance, a failing
routing service makes `calculateRoute` return the fallback result, tagged
`isFallback = true` with strictly positive distance and duration.  (The
original claim asked only for a *distinct* consecutive pair; distinct
coordinate pairs such as `(0, -180)` and `(0, 180)` can denote the same
point and have haversine distance zero, see the counterexample.) -/
theorem calculateRoute_failure_fallback_positive (wps : List (ℝ × ℝ))
    (mode : String) (fetch : FetchOutcome) (h2 : 2 ≤ wps.length)
    (hpos : ∃ i, i + 1 < wps.length ∧
      0 < haversineDistance (wps.getD i (0, 0)) (wps.getD (i + 1) (0, 0)))
    (hfail : ServiceFails fetch) :
    (calculateRoute (some wps) mode fetch).1 =
      Except.ok (calculateFallbackRoute wps mode) ∧
    (calculateFallbackRoute wps mode).isFallback = true ∧
    0 < (calculateFallbackRoute wps mode).distance ∧
    0 < (calculateFallbackRoute wps mode).duration := by
  obtain ⟨i, hi, hd⟩ := hpos
  have hsum : 0 < pairwiseHaversineSum wps :=
    pairwiseHaversineSum_pos wps i hi hd
  have hspeed := avgSpeedOf_pos mode
  refine ⟨calculateRoute_fails_to_fallback wps mode fetch h2 hfail, rfl, ?_, ?_⟩
  · rw [calculateFallbackRoute_distance]
    positivity
  · rw [calculateFallbackRoute_duration]
    positivity

/-- Witness for the amended claim C3 at the equator pair
`[(0,0), (0,1)]` with a network error in driving mode. -/
theorem calculateRoute_failure_fallback_positive_witness :
    (2 ≤ ([((0 : ℝ), (0 : ℝ)), ((0 : ℝ), (1 : ℝ))] : List (ℝ × ℝ)).length ∧
      (∃ i, i + 1 < ([((0 : ℝ), (0 : ℝ)), ((0 : ℝ), (1 : ℝ))] : List (ℝ × ℝ)).length ∧
        0 < haversineDistance
          (([((0 : ℝ), (0 : ℝ)), ((0 : ℝ), (1 : ℝ))] : List (ℝ × ℝ)).getD i (0, 0))
          (([((0 : ℝ), (0 : ℝ)), ((0 : ℝ), (1 : ℝ))] : List (ℝ × ℝ)).getD (i + 1) (0, 0))) ∧
      ServiceFails FetchOutcome.networkError) ∧
    ((calculateRoute (some [((0 : ℝ), (0 : ℝ)), ((0 : ℝ), (1 : ℝ))]) "driving"
        FetchOutcome.networkError).1 =
      Except.ok (calculateFallbackRoute [((0 : ℝ), (0 : ℝ)), ((0 : ℝ), (1 : ℝ))] "driving") ∧
    (calculateFallbackRoute [((0 : ℝ), (0 : ℝ)), ((0 : ℝ), (1 : ℝ))] "driving").isFallback = true ∧
    0 < (calculateFallbackRoute [((0 : ℝ), (0 : ℝ)), ((0 : ℝ), (1 : ℝ))] "driving").distance ∧
    0 < (calculateFallbackRoute [((0 : ℝ), (0 : ℝ)), ((0 : ℝ), (1 : ℝ))] "driving").duration) :=
  ⟨⟨by decide,
      ⟨0, by decide, by
        simpa using haversineDistance_equator_pos 1 (by norm_num) (by norm_num)⟩,
      trivial⟩,
    calculateRoute_failure_fallback_positive
      [((0 : ℝ), (0 : ℝ)), ((0 : ℝ), (1 : ℝ))] "driving" FetchOutcome.networkError
      (by decide)
      ⟨0, by decide, by
        simpa using haversineDistance_equator_pos 1 (by norm_num) (by norm_num)⟩
      trivial⟩

/-- Counterexample to claim C3 as stated: the two waypoints
`(0, -180)` and `(0, 180)` are distinct coordinate pairs, the failing
service triggers the fallback, yet the fallback distance is 0, not
positive. -/
theorem calculateRoute_distinct_waypoints_zero_distance :
    ((0 : ℝ), (-180 : ℝ)) ≠ ((0 : ℝ), (180 : ℝ)) ∧
    (calculateRoute (some [((0 : ℝ), (-180 : ℝ)), ((0 : ℝ), (180 : ℝ))]) "driving"
        FetchOutcome.networkError).1 =
      Except.ok (calculateFallbackRoute
        [((0 : ℝ), (-180 : ℝ)), ((0 : ℝ), (180 : ℝ))] "driving") ∧
    (calculateFallbackRoute
      [((0 : ℝ), (-180 : ℝ)), ((0 : ℝ), (180 : ℝ))] "driving").distance = 0 := by
  refine ⟨?_, ?_, ?_⟩
  · intro h
    have := congrArg Prod.snd h
    norm_num at this
  · exact calculateRoute_fails_to_fallback _ "driving" FetchOutcome.networkError
      (by decide) trivial
  · rw [calculateFallbackRoute_distance]
    have : pairwiseHaversineSum [((0 : ℝ), (-180 : ℝ)), ((0 : ℝ), (180 : ℝ))] = 0 := by
      unfold pairwiseHaversineSum pairwiseHaversineSum
      rw [haversineDistance_antimeridian]
      ring
    rw [this]
    ring

/-! ## Route aggregate: waypoint removal below the ready threshold -/

/-- Claim C7 (amended): when removing a waypoint leaves fewer than two,
the aggregate's distance and duration are reset to zero, the route
overlay is removed from the map, and the route calculator is not
invoked; the aggregate's `geometry` field, however, is left unchanged
(the source never resets it on this path — see the counterexample). -/
theorem removeWaypoint_below_two_clears_stats (s : AppState) (idx : Nat)
    (fetch : FetchOutcome)
    (h : (s.currentRoute.waypoints.eraseIdx idx).length < 2) :
    (removeWaypoint s idx fetch).1.currentRoute.waypoints =
      s.currentRoute.waypoints.eraseIdx idx ∧
    (removeWaypoint s idx fetch).1.currentRoute.distance = 0 ∧
    (removeWaypoint s idx fetch).1.currentRoute.duration = 0 ∧
    (removeWaypoint s idx fetch).1.mapRoute = none ∧
    (removeWaypoint s idx fetch).1.currentRoute.geometry =
      s.currentRoute.geometry ∧
    (removeWaypoint s idx fetch).2 = false := by
  unfold removeWaypoint updateRouteOnMap
  simp only [if_pos h]
  exact ⟨trivial, trivial, trivial, trivial, trivial, trivial⟩

/-- Witness for the amended claim C7: removing the first of the two
waypoints of `sampleState`. -/
theorem removeWaypoint_below_two_clears_stats_witness :
    ((sampleState.currentRoute.waypoints.eraseIdx 0).length < 2) ∧
    ((removeWaypoint sampleState 0 FetchOutcome.networkError).1.currentRoute.waypoints =
      sampleState.currentRoute.waypoints.eraseIdx 0 ∧
    (removeWaypoint sampleState 0 FetchOutcome.networkError).1.currentRoute.distance = 0 ∧
    (removeWaypoint sampleState 0 FetchOutcome.networkError).1.currentRoute.duration = 0 ∧
    (removeWaypoint sampleState 0 FetchOutcome.networkError).1.mapRoute = none ∧
    (removeWaypoint sampleState 0 FetchOutcome.networkError).1.currentRoute.geometry =
      sampleState.currentRoute.geometry ∧
    (removeWaypoint sampleState 0 FetchOutcome.networkError).2 = false) :=
  ⟨by simp [sampleState], removeWaypoint_below_two_clears_stats sampleState 0
    FetchOutcome.networkError (by simp [sampleState])⟩

/-- Counterexample to claim C7 as stated: after removing a waypoint of
`sampleState` (leaving a single waypoint), the aggregate's geometry is
still the old geometry rather than being reset to its empty value. -/
theorem removeWaypoint_keeps_stale_geometry :
    ((sampleState.currentRoute.waypoints.eraseIdx 0).length < 2) ∧
    (removeWaypoint sampleState 0 FetchOutcome.networkError).1.currentRoute.geometry =
      some sampleGeometry ∧
    (removeWaypoint sampleState 0 FetchOutcome.networkError).1.currentRoute.geometry ≠
      none := by
  refine ⟨by simp [sampleState], ?_, ?_⟩
  · simp [removeWaypoint, updateRouteOnMap, sampleState]
  · simp [removeWaypoint, updateRouteOnMap, sampleState]

/-! ## Route aggregate: duplicate waypoint identifiers -/

theorem updateRouteOnMap_waypoints (s : AppState) (fetch : FetchOutcome) :
    (updateRouteOnMap s fetch).1.currentRoute.waypoints =
      s.currentRoute.waypoints := by
  unfold updateRouteOnMap
  by_cases h : s.currentRoute.waypoints.length < 2
  · simp [if_pos h]
  · simp only [if_neg h]
    cases hr : (calculateRoute (some (s.currentRoute.waypoints.map
        (fun wp => wp.coordinates))) s.currentRoute.transportMode fetch).1 with
    | ok routeData => simp [applyRouteResult]
    | error e => simp

/-- Claim C9: adding a POI whose identifier is already among the route's
waypoints leaves the waypoint list unchanged, and consequently every add
operation preserves uniqueness of waypoint identifiers. -/
theorem addWaypointFromPOI_no_duplicate_ids (pois : List POI)
    (categories : List Category) (s : AppState) (poiId : String)
    (fetch : FetchOutcome)
    (hnd : (s.currentRoute.waypoints.map AppWaypoint.id).Nodup) :
    ((∃ wp ∈ s.currentRoute.waypoints, wp.id = poiId) →
      (addWaypointFromPOI pois categories s poiId fetch).currentRoute.waypoints =
        s.currentRoute.waypoints) ∧
    ((addWaypointFromPOI pois categories s poiId
        fetch).currentRoute.waypoints.map AppWaypoint.id).Nodup := by
  unfold addWaypointFromPOI
  cases hfind : getPoiById pois poiId with
  | none => exact ⟨fun _ => rfl, hnd⟩
  | some poi =>
    dsimp only
    by_cases hdup : s.currentRoute.waypoints.any (fun wp => wp.id = poiId)
    · rw [if_pos hdup]
      exact ⟨fun _ => rfl, hnd⟩
    · rw [if_neg hdup]
      have hnotin : poiId ∉ s.currentRoute.waypoints.map AppWaypoint.id := by
        intro hmem
        apply hdup
        rw [List.any_eq_true]
        obtain ⟨wp, hwp, hid⟩ := List.mem_map.1 hmem
        exact ⟨wp, hwp, by simp [hid]⟩
      have hpoiid : poi.id = poiId := by
        have := List.find?_some hfind
        simpa using this
      constructor
      · intro ⟨wp, hwp, hid⟩
        exact absurd (List.mem_map.2 ⟨wp, hwp, hid⟩) hnotin
      · rw [updateRouteOnMap_waypoints]
        simp only [List.map_append, List.map_cons, List.map_nil]
        rw [List.nodup_append]
        refine ⟨hnd, List.nodup_singleton _, ?_⟩
        intro x hx hx'
        simp only [List.mem_singleton] at hx'
        subst hx'
        simp only [hpoiid] at hx
        exact hnotin hx

/-- Witness for claim C9: `sampleState` already contains waypoint id
"A"; adding `samplePoi` (also id "A") leaves the list unchanged and the
identifiers stay unique. -/
theorem addWaypointFromPOI_no_duplicate_ids_witness :
    ((sampleState.currentRoute.waypoints.map AppWaypoint.id).Nodup) ∧
    ((∃ wp ∈ sampleState.currentRoute.waypoints, wp.id = "A") →
      (addWaypointFromPOI [samplePoi] [] sampleState "A"
        FetchOutcome.networkError).currentRoute.waypoints =
        sampleState.currentRoute.waypoints) ∧
    ((addWaypointFromPOI [samplePoi] [] sampleState "A"
        FetchOutcome.networkError).currentRoute.waypoints.map AppWaypoint.id).Nodup :=
  ⟨by decide,
    (addWaypointFromPOI_no_duplicate_ids [samplePoi] [] sampleState "A"
      FetchOutcome.networkError (by decide)).1,
    (addWaypointFromPOI_no_duplicate_ids [samplePoi] [] sampleState "A"
      FetchOutcome.networkError (by decide)).2⟩

/-! ## Stale in-flight computation overwrites a newer result -/

/-- Claim C10 (exhibiting the code bug): the source has no sequencing
guard, so when the superseded driving-mode computation resolves after
the walking-mode one, the displayed duration is the stale driving-mode
duration, which differs from the walking-mode duration.  This contradicts
the claim that the final stats always match the latest mode under every
interleaving. -/
theorem staleRouteResult_overwrites_newer (s : AppState) :
    CurrentRoute.duration (AppState.currentRoute (applyRouteResult
        (applyRouteResult s [((0 : ℝ), (0 : ℝ)), ((0 : ℝ), (1 : ℝ))]
          (calculateFallbackRoute [((0 : ℝ), (0 : ℝ)), ((0 : ℝ), (1 : ℝ))] "walking"))
        [((0 : ℝ), (0 : ℝ)), ((0 : ℝ), (1 : ℝ))]
        (calculateFallbackRoute [((0 : ℝ), (0 : ℝ)), ((0 : ℝ), (1 : ℝ))] "driving"))) =
      (calculateFallbackRoute [((0 : ℝ), (0 : ℝ)), ((0 : ℝ), (1 : ℝ))] "driving").duration ∧
    (calculateFallbackRoute [((0 : ℝ), (0 : ℝ)), ((0 : ℝ), (1 : ℝ))] "driving").duration ≠
      (calculateFallbackRoute [((0 : ℝ), (0 : ℝ)), ((0 : ℝ), (1 : ℝ))] "walking").duration := by
  constructor
  · rfl
  · rw [calculateFallbackRoute_duration, calculateFallbackRoute_duration]
    have hsum : 0 < pairwiseHaversineSum [((0 : ℝ), (0 : ℝ)), ((0 : ℝ), (1 : ℝ))] := by
      apply pairwiseHaversineSum_pos _ 0 (by decide)
      simpa using haversineDistance_equator_pos 1 (by norm_num) (by norm_num)
    have hd : avgSpeedOf "driving" = 80 := by
      unfold avgSpeedOf TransportModes
      rw [if_pos rfl]
    have hw : avgSpeedOf "walking" = 5 := by
      unfold avgSpeedOf TransportModes
      rw [if_neg (by decide), if_neg (by decide), if_pos rfl]
    rw [hd, hw]
    intro heq
    nlinarith

/-! ## Waypoint sequencer: greedy nearest-neighbour characterisation -/

theorem scanNearestAux_sound (cur : ℝ × ℝ) :
    ∀ (l : List AppWaypoint) (n bi : Nat) (bd : ℝ),
      (scanNearestAux cur l n (bi, some bd) = (bi, some bd) ∧
        ∀ q ∈ l, bd ≤ haversineDistance cur q.coordinates) ∨
      (∃ pre chosen suf,
        l = pre ++ chosen :: suf ∧
        scanNearestAux cur l n (bi, some bd) =
          (n + pre.length, some (haversineDistance cur chosen.coordinates)) ∧
        haversineDistance cur chosen.coordinates < bd ∧
        (∀ q ∈ pre, haversineDistance cur chosen.coordinates <
          haversineDistance cur q.coordinates) ∧
        (∀ q ∈ suf, haversineDistance cur chosen.coordinates ≤
          haversineDistance cur q.coordinates)) := by
  intro l
  induction l with
  | nil =>
    intro n bi bd
    left
    exact ⟨rfl, by simp⟩
  | cons wp rest ih =>
    intro n bi bd
    have hstep : scanNearestAux cur (wp :: rest) n (bi, some bd) =
        scanNearestAux cur rest (n + 1)
          (if haversineDistance cur wp.coordinates < bd
            then (n, some (haversineDistance cur wp.coordinates))
            else (bi, some bd)) := by
      simp only [scanNearestAux]
    by_cases hlt : haversineDistance cur wp.coordinates < bd
    · have h1 : scanNearestAux cur (wp :: rest) n (bi, some bd) =
          scanNearestAux cur rest (n + 1)
            (n, some (haversineDistance cur wp.coordinates)) := by
        rw [hstep, if_pos hlt]
      rcases ih (n + 1) n (haversineDistance cur wp.coordinates) with
        ⟨heq, hall⟩ | ⟨pre', ch, suf', hsplit, heq, hlt', hpre, hsuf⟩
      · right
        refine ⟨[], wp, rest, rfl, ?_, hlt, by simp, hall⟩
        rw [h1, heq]
        simp
      · right
        refine ⟨wp :: pre', ch, suf', by simp [hsplit], ?_,
          lt_trans hlt' hlt, ?_, hsuf⟩
        · rw [h1, heq]
          have : n + 1 + pre'.length = n + (wp :: pre').length := by
            simp
            omega
          rw [this]
        · intro q hq
          rcases List.mem_cons.1 hq with rfl | hq'
          · exact hlt'
          · exact hpre q hq'
    · have h1 : scanNearestAux cur (wp :: rest) n (bi, some bd) =
          scanNearestAux cur rest (n + 1) (bi, some bd) := by
        rw [hstep, if_neg hlt]
      rcases ih (n + 1) bi bd with
        ⟨heq, hall⟩ | ⟨pre', ch, suf', hsplit, heq, hlt', hpre, hsuf⟩
      · left
        refine ⟨by rw [h1, heq], ?_⟩
        intro q hq
        rcases List.mem_cons.1 hq with rfl | hq'
        · exact not_lt.1 hlt
        · exact hall q hq'
      · right
        refine ⟨wp :: pre', ch, suf', by simp [hsplit], ?_, hlt', ?_, hsuf⟩
        · rw [h1, heq]
          have : n + 1 + pre'.length = n + (wp :: pre').length := by
            simp
            omega
          rw [this]
        · intro q hq
          rcases List.mem_cons.1 hq with rfl | hq'
          · exact lt_of_lt_of_le hlt' (not_lt.1 hlt)
          · exact hpre q hq'

theorem scanNearest_split (cur : ℝ × ℝ) (w0 : AppWaypoint)
    (ws : List AppWaypoint) :
    ∃ pre chosen suf,
      w0 :: ws = pre ++ chosen :: suf ∧
      (scanNearest cur (w0 :: ws)).1 = pre.length ∧
      (∀ q ∈ pre, haversineDistance cur chosen.coordinates <
        haversineDistance cur q.coordinates) ∧
      (∀ q ∈ suf, haversineDistance cur chosen.coordinates ≤
        haversineDistance cur q.coordinates) := by
  have hstep : scanNearest cur (w0 :: ws) =
      scanNearestAux cur ws 1 (0, some (haversineDistance cur w0.coordinates)) := by
    simp only [scanNearest, scanNearestAux]
  rcases scanNearestAux_sound cur ws 1 0 (haversineDistance cur w0.coordinates)
    with ⟨heq, hall⟩ | ⟨pre', ch, suf', hsplit, heq, hlt, hpre, hsuf⟩
  · exact ⟨[], w0, ws, rfl, by rw [hstep, heq]; rfl, by simp, hall⟩
  · refine ⟨w0 :: pre', ch, suf', by simp [hsplit], ?_, ?_, hsuf⟩
    · rw [hstep, heq]
      simp [Nat.add_comm]
    · intro q hq
      rcases List.mem_cons.1 hq with rfl | hq'
      · exact hlt
      · exact hpre q hq'

theorem getD_length_append (pre suf : List AppWaypoint)
    (c d : AppWaypoint) : (pre ++ c :: suf).getD pre.length d = c := by
  induction pre with
  | nil => rfl
  | cons a t ih =>
    simpa only [List.cons_append, List.length_cons, List.getD_cons_succ]
      using ih

theorem eraseIdx_length_append (pre suf : List AppWaypoint)
    (c : AppWaypoint) : (pre ++ c :: suf).eraseIdx pre.length = pre ++ suf := by
  induction pre with
  | nil => rfl
  | cons a t ih =>
    simp only [List.cons_append, List.length_cons, List.eraseIdx_cons_succ, ih]

theorem nnLoop_greedy :
    ∀ (n : Nat) (remaining acc : List AppWaypoint), remaining.length = n →
      ∃ rest, nnLoop n acc remaining = acc ++ rest ∧
        GreedyChain (acc.getLastD defaultWaypoint).coordinates remaining rest := by
  intro n
  induction n with
  | zero =>
    intro remaining acc h
    have hnil : remaining = [] := List.length_eq_zero.1 h
    subst hnil
    exact ⟨[], by simp [nnLoop], GreedyChain.nil _⟩
  | succ n ih =>
    intro remaining acc h
    cases remaining with
    | nil => simp at h
    | cons w0 ws =>
      obtain ⟨pre, chosen, suf, hsplit, hidx, hpre, hsuf⟩ :=
        scanNearest_split ((acc.getLastD defaultWaypoint).coordinates) w0 ws
      have hunfold : nnLoop (n + 1) acc (w0 :: ws) =
          nnLoop n
            (acc ++ [(w0 :: ws).getD
              ((scanNearest (acc.getLastD defaultWaypoint).coordinates (w0 :: ws)).1)
              defaultWaypoint])
            ((w0 :: ws).eraseIdx
              ((scanNearest (acc.getLastD defaultWaypoint).coordinates (w0 :: ws)).1)) := by
        simp only [nnLoop]
      rw [hidx] at hunfold
      rw [hsplit] at hunfold
      rw [getD_length_append, eraseIdx_length_append] at hunfold
      have hlen : (pre ++ suf).length = n := by
        have h' := h
        rw [hsplit] at h'
        simp only [List.length_append, List.length_cons] at h' ⊢
        omega
      obtain ⟨rest, hrest, hchain⟩ := ih (pre ++ suf) (acc ++ [chosen]) hlen
      have hlast : ((acc ++ [chosen]).getLastD defaultWaypoint) = chosen :=
        List.getLastD_concat _ _ _
      refine ⟨chosen :: rest, ?_, ?_⟩
      · rw [hsplit]
        rw [hunfold, hrest]
        simp
      · rw [hsplit]
        exact GreedyChain.cons _ pre suf rest chosen hpre hsuf
          (by rwa [hlast] at hchain)

theorem haversine_AB : haversineDistance wpA.coordinates wpB.coordinates =
    6371 * toRad 1 :=
  haversineDistance_equator 1 (by norm_num) (by norm_num)

theorem haversine_AC : haversineDistance wpA.coordinates wpC.coordinates =
    6371 * toRad 3 :=
  haversineDistance_equator 3 (by norm_num) (by norm_num)

theorem haversine_AB_le_AC :
    haversineDistance wpA.coordinates wpB.coordinates ≤
      haversineDistance wpA.coordinates wpC.coordinates := by
  rw [haversine_AB, haversine_AC]
  unfold toRad
  nlinarith [Real.pi_pos]

theorem scanNearest_A_BC :
    scanNearest wpA.coordinates [wpB, wpC] =
      (0, some (haversineDistance wpA.coordinates wpB.coordinates)) := by
  simp only [scanNearest, scanNearestAux]
  rw [if_neg (not_lt.2 haversine_AB_le_AC)]

theorem scanNearest_B_C :
    scanNearest wpB.coordinates [wpC] =
      (0, some (haversineDistance wpB.coordinates wpC.coordinates)) := by
  simp only [scanNearest, scanNearestAux]

theorem optimize_ABC :
    optimizeWaypointOrder [wpA, wpB, wpC] 0 = [wpA, wpB, wpC] := by
  unfold optimizeWaypointOrder
  rw [if_neg (by decide : ¬([wpA, wpB, wpC] : List AppWaypoint).length ≤ 2)]
  have hrem : filterIdxNe [wpA, wpB, wpC] 0 = [wpB, wpC] := by
    simp [filterIdxNe, filterIdxNeAux]
  rw [hrem]
  show nnLoop 2 [wpA] [wpB, wpC] = [wpA, wpB, wpC]
  simp only [nnLoop]
  rw [show (List.getLastD [wpA] defaultWaypoint) = wpA from rfl, scanNearest_A_BC]
  simp only [nnLoop, List.getD_cons_zero, List.eraseIdx_cons_zero]
  rw [show (List.getLastD ([wpA] ++ [wpB]) defaultWaypoint) = wpB from rfl,
    scanNearest_B_C]
  simp [nnLoop]

/-- Claim C5: on more than two waypoints with an in-range start index,
`optimizeWaypointOrder` returns the greedy nearest-neighbour order — it
starts with the waypoint at `startIndex` and each subsequent element is
the first-encountered not-yet-placed waypoint of minimum haversine
distance to the last-placed one (`GreedyChain`); in particular on
A = (0,0), B = (0,1), C = (0,3) starting at A it yields [A, B, C]. -/
theorem optimizeWaypointOrder_greedy (wps : List AppWaypoint) (i : Nat)
    (h2 : 2 < wps.length) (hi : i < wps.length) :
    (∃ rest,
      optimizeWaypointOrder wps i = wps.getD i defaultWaypoint :: rest ∧
      GreedyChain (wps.getD i defaultWaypoint).coordinates
        (filterIdxNe wps i) rest) ∧
    optimizeWaypointOrder [wpA, wpB, wpC] 0 = [wpA, wpB, wpC] := by
  constructor
  · unfold optimizeWaypointOrder
    rw [if_neg (not_le.2 h2)]
    obtain ⟨rest, heq, hchain⟩ :=
      nnLoop_greedy (filterIdxNe wps i).length (filterIdxNe wps i)
        [wps.getD i defaultWaypoint] rfl
    refine ⟨rest, ?_, ?_⟩
    · rw [heq]
      rfl
    · have hlast : (([wps.getD i defaultWaypoint]).getLastD defaultWaypoint) =
          wps.getD i defaultWaypoint := rfl
      rwa [hlast] at hchain
  · exact optimize_ABC

/-- Witness for claim C5 at the concrete list [wpA, wpB, wpC] with start
index 0. -/
theorem optimizeWaypointOrder_greedy_witness :
    (2 < ([wpA, wpB, wpC] : List AppWaypoint).length ∧
      0 < ([wpA, wpB, wpC] : List AppWaypoint).length) ∧
    ((∃ rest,
      optimizeWaypointOrder [wpA, wpB, wpC] 0 =
        ([wpA, wpB, wpC] : List AppWaypoint).getD 0 defaultWaypoint :: rest ∧
      GreedyChain (([wpA, wpB, wpC] : List AppWaypoint).getD 0 defaultWaypoint).coordinates
        (filterIdxNe [wpA, wpB, wpC] 0) rest) ∧
    optimizeWaypointOrder [wpA, wpB, wpC] 0 = [wpA, wpB, wpC]) :=
  ⟨⟨by decide, by decide⟩,
    optimizeWaypointOrder_greedy [wpA, wpB, wpC] 0 (by decide) (by decide)⟩
